import Mathlib

/-!
Shallow embedding of the ibc-rs ICS-04 channel close-init handler
(crates/ibc/src/core/ics04_channel/handler/chan_close_init.rs) and of the
gRPC channel query service (crates/ibc/src/services/channel.rs), together
with theorems about their behaviour.

Identifiers are modelled as strings, sequences and heights as naturals, and
the host context interfaces as explicit data (finite association lists for
the stores) plus function fields for host-supplied operations.  Fallible
Rust functions returning `Result` become Lean functions returning `Except`.
Execution-side mutation is explicit state passing: an executing handler
returns its result together with the final state, so that writes performed
before an error remain visible, exactly as with the `&mut` context in Rust.
-/

namespace IbcCore

/-- Height of a chain: a pair of revision number and revision height. -/
structure Height where
  revision_number : Nat
  revision_height : Nat
  deriving DecidableEq

/-- Status of a client, derived from its state and host time
(spec: Active / Frozen / Expired). -/
inductive Status where
  | Active
  | Frozen
  | Expired
  deriving DecidableEq

/-- Modelled from the spec: a status is active exactly when it is `Active`. -/
def Status.is_active : Status → Bool
  | Status.Active => true
  | _ => false

/-- State of a channel end (ics04_channel::channel::State). -/
inductive ChannelState where
  | Uninit
  | Init
  | TryOpen
  | Open
  | Closed
  deriving DecidableEq

/-- Ordering of a channel (spec: `ordering ∈ {Ordered, Unordered}`). -/
inductive Order where
  | Ordered
  | Unordered
  deriving DecidableEq

/-- State of a connection end (ics03_connection::connection::State). -/
inductive ConnectionState where
  | Uninit
  | Init
  | TryOpen
  | Open
  deriving DecidableEq

/-- Counterparty of a channel end: a port id and an optional channel id. -/
structure ChanCounterparty where
  port_id : String
  channel_id : Option String
  deriving DecidableEq

/-- Channel end, per the spec data model: state, ordering, counterparty
(field `remote`, accessed through `counterparty()` in the source),
connection hops and version. -/
structure ChannelEnd where
  state : ChannelState
  ordering : Order
  remote : ChanCounterparty
  connection_hops : List String
  version : String
  deriving DecidableEq

/-- Accessor mirroring `ChannelEnd::counterparty()`. -/
def ChannelEnd.counterparty (c : ChannelEnd) : ChanCounterparty :=
  c.remote

/-- Mutator mirroring `ChannelEnd::set_state`, which replaces only the
state field. -/
def ChannelEnd.set_state (c : ChannelEnd) (s : ChannelState) : ChannelEnd :=
  { c with state := s }

/-- Access to `connection_hops[0]`, total via a default; every use in the
handlers is preceded by the length-one check or by the invariant that the
hops list is non-empty. -/
def ChannelEnd.connection_hops_first (c : ChannelEnd) : String :=
  c.connection_hops.headD ""

/-- Connection end, per the spec data model (the counterparty record is
omitted: no handler embedded here reads it). -/
structure ConnectionEnd where
  state : ConnectionState
  client_id : String
  versions : List String
  delay_period : Nat
  deriving DecidableEq

/-- Client errors used by the embedded handlers. -/
inductive ClientError where
  | ClientNotActive (status : Status)
  | ClientStateNotFound (client_id : String)
  deriving DecidableEq

/-- Channel errors used by the embedded handlers. -/
inductive ChannelError where
  | ChannelNotFound (port_id : String) (channel_id : String)
  | InvalidState (description : String) (actual : ChannelState)
  | InvalidConnectionHopsLength (expected : Nat) (actual : Nat)
  | Other (description : String)
  deriving DecidableEq

/-- Connection errors used by the embedded handlers. -/
inductive ConnectionError where
  | ConnectionNotFound (connection_id : String)
  | InvalidState (expected : ConnectionState) (actual : ConnectionState)
  deriving DecidableEq

/-- Top-level context error, a tagged union of the per-layer errors
(mirrors `ContextError`). -/
inductive ContextError where
  | client (e : ClientError)
  | channel (e : ChannelError)
  | connection (e : ConnectionError)
  | signer (description : String)
  deriving DecidableEq

/-- Modelled from the spec: an already-Closed channel rejects CloseInit and
CloseConfirm; `verify_not_closed` (not under src/) errors exactly when the
channel state is Closed. -/
def ChannelEnd.verify_not_closed (c : ChannelEnd) : Except ContextError Unit :=
  if c.state = ChannelState.Closed then
    Except.error (ContextError.channel (ChannelError.InvalidState "expected a channel that is not closed" c.state))
  else
    Except.ok ()

/-- Modelled from the spec: `connection_hops` is a non-empty list, currently
of length 1; `verify_connection_hops_length` (not under src/) errors unless
the list has exactly one element. -/
def ChannelEnd.verify_connection_hops_length (c : ChannelEnd) : Except ContextError Unit :=
  if c.connection_hops.length = 1 then
    Except.ok ()
  else
    Except.error (ContextError.channel (ChannelError.InvalidConnectionHopsLength 1 c.connection_hops.length))

/-- Modelled from the spec: `verify_state_matches` (not under src/) errors
unless the connection state equals the expected state. -/
def ConnectionEnd.verify_state_matches (c : ConnectionEnd) (expected : ConnectionState) :
    Except ContextError Unit :=
  if c.state = expected then
    Except.ok ()
  else
    Except.error (ContextError.connection (ConnectionError.InvalidState expected c.state))

/-- Client state as seen by the handlers: the result of the status query at
the current host context (embedding of `client_state.status(ctx, id)`). -/
structure ClientState where
  status : Except ContextError Status

/-- Path of a channel end in the host store (port id and channel id). -/
structure ChannelEndPath where
  port_id : String
  channel_id : String
  deriving DecidableEq

/-- Constructor mirroring `ChannelEndPath::new`. -/
def ChannelEndPath.new (port_id channel_id : String) : ChannelEndPath :=
  ⟨port_id, channel_id⟩

/-- Lookup of a key in an association list, first match wins. -/
def findIn {α β : Type} [DecidableEq α] : List (α × β) → α → Option β
  | [], _ => none
  | (k, v) :: rest, key => if k = key then some v else findIn rest key

/-- Host state backing the `ValidationContext` reads used by close-init:
channel, connection and client stores as association lists, and the host
signer policy as a boolean predicate. -/
structure HostState where
  channels : List (ChannelEndPath × ChannelEnd)
  connections : List (String × ConnectionEnd)
  clients : List (String × ClientState)
  signer_ok : String → Bool

/-- Read of a channel end (`ValidationContext::channel_end`), failing when
the path is absent. -/
def HostState.channel_end (ctx : HostState) (p : ChannelEndPath) : Except ContextError ChannelEnd :=
  match findIn ctx.channels p with
  | some ce => Except.ok ce
  | none => Except.error (ContextError.channel (ChannelError.ChannelNotFound p.port_id p.channel_id))

/-- Read of a connection end (`ValidationContext::connection_end`), failing
when the id is absent. -/
def HostState.connection_end (ctx : HostState) (cid : String) : Except ContextError ConnectionEnd :=
  match findIn ctx.connections cid with
  | some ce => Except.ok ce
  | none => Except.error (ContextError.connection (ConnectionError.ConnectionNotFound cid))

/-- Read of a client state (`ValidationContext::client_state`), failing when
the id is absent. -/
def HostState.client_state (ctx : HostState) (cid : String) : Except ContextError ClientState :=
  match findIn ctx.clients cid with
  | some cs => Except.ok cs
  | none => Except.error (ContextError.client (ClientError.ClientStateNotFound cid))

/-- Host signer check (`ValidationContext::validate_message_signer`). -/
def HostState.validate_message_signer (ctx : HostState) (s : String) : Except ContextError Unit :=
  if ctx.signer_ok s then Except.ok () else Except.error (ContextError.signer s)

/-- Message initiating a channel close on chain A. -/
structure MsgChannelCloseInit where
  port_id_on_a : String
  chan_id_on_a : String
  signer : String
  deriving DecidableEq

/-- Module-emitted event: a kind string and an attribute map. -/
structure ModuleEvent where
  kind : String
  attributes : List (String × String)
  deriving DecidableEq

/-- Extras returned by a module execute callback: events and log lines. -/
structure ModuleExtras where
  events : List ModuleEvent
  log : List String
  deriving DecidableEq

/-- Module callbacks used by the close-init handlers. -/
structure Module where
  on_chan_close_init_validate : String → String → Except ContextError Unit
  on_chan_close_init_execute : String → String → Except ContextError ModuleExtras

/-- Kind carried by a core `Message` event. -/
inductive MessageKind where
  | Client
  | Connection
  | Channel
  | Packet
  deriving DecidableEq

/-- Payload of the `CloseInitChannel` event. -/
structure CloseInit where
  port_id_on_a : String
  chan_id_on_a : String
  port_id_on_b : String
  chan_id_on_b : String
  conn_id_on_a : String
  deriving DecidableEq

/-- IBC events emitted by the close-init execute handler. -/
inductive IbcEvent where
  | Message (k : MessageKind)
  | CloseInitChannel (e : CloseInit)
  | Module (e : ModuleEvent)
  deriving DecidableEq

/-- One item of the emission trace: either an event or a log line, in call
order. -/
inductive Emission where
  | event (e : IbcEvent)
  | log (message : String)
  deriving DecidableEq

/-- Execution-side state: the host stores plus the emission trace produced
so far by `emit_ibc_event` and `log_message`. -/
structure ExecState where
  host : HostState
  emissions : List Emission

/-- Write of a channel end (`ExecutionContext::store_channel`); the new
binding shadows any previous one at the same path. -/
def ExecState.store_channel (s : ExecState) (p : ChannelEndPath) (ce : ChannelEnd) : ExecState :=
  { s with host := { s.host with channels := (p, ce) :: s.host.channels } }

/-- Emission of an IBC event (`ExecutionContext::emit_ibc_event`). -/
def ExecState.emit_ibc_event (s : ExecState) (e : IbcEvent) : ExecState :=
  { s with emissions := s.emissions ++ [Emission.event e] }

/-- Emission of a log line (`ExecutionContext::log_message`). -/
def ExecState.log_message (s : ExecState) (m : String) : ExecState :=
  { s with emissions := s.emissions ++ [Emission.log m] }

/-- Embedding of the private `validate` function of chan_close_init.rs:
signer check, channel lookup, not-closed and hops-length checks, connection
lookup and Open check, client lookup and active-status check. -/
def validate (ctx_a : HostState) (msg : MsgChannelCloseInit) : Except ContextError Unit := do
  ctx_a.validate_message_signer msg.signer
  let chan_end_path_on_a := ChannelEndPath.new msg.port_id_on_a msg.chan_id_on_a
  let chan_end_on_a ← ctx_a.channel_end chan_end_path_on_a
  chan_end_on_a.verify_not_closed
  chan_end_on_a.verify_connection_hops_length
  let conn_end_on_a ← ctx_a.connection_end chan_end_on_a.connection_hops_first
  conn_end_on_a.verify_state_matches ConnectionState.Open
  let client_id_on_a := conn_end_on_a.client_id
  let client_state_of_b_on_a ← ctx_a.client_state client_id_on_a
  let status ← client_state_of_b_on_a.status
  if status.is_active then
    Except.ok ()
  else
    Except.error (ContextError.client (ClientError.ClientNotActive status))

/-- Embedding of `chan_close_init_validate`: the private validation followed
by the module validate callback. -/
def chan_close_init_validate (ctx_a : HostState) (mod : Module) (msg : MsgChannelCloseInit) :
    Except ContextError Unit := do
  validate ctx_a msg
  mod.on_chan_close_init_validate msg.port_id_on_a msg.chan_id_on_a

/-- Embedding of `chan_close_init_execute`.  The module execute callback
runs first; then the channel end is read, stored back with state Closed, a
success log line is written, and the core and module events are emitted.
The result is returned together with the final state, so writes performed
before an error remain, as with the `&mut` context in Rust. -/
def chan_close_init_execute (ctx_a : ExecState) (mod : Module) (msg : MsgChannelCloseInit) :
    Except ContextError Unit × ExecState :=
  match mod.on_chan_close_init_execute msg.port_id_on_a msg.chan_id_on_a with
  | Except.error e => (Except.error e, ctx_a)
  | Except.ok extras =>
    let chan_end_path_on_a := ChannelEndPath.new msg.port_id_on_a msg.chan_id_on_a
    match ctx_a.host.channel_end chan_end_path_on_a with
    | Except.error e => (Except.error e, ctx_a)
    | Except.ok chan_end_on_a =>
      -- state changes
      let ctx_a := ctx_a.store_channel chan_end_path_on_a (chan_end_on_a.set_state ChannelState.Closed)
      -- emit events and logs
      let ctx_a := ctx_a.log_message "success: channel close init"
      match chan_end_on_a.counterparty.channel_id with
      | none =>
        (Except.error (ContextError.channel (ChannelError.Other
          "internal error: ChannelEnd does not have a counterparty channel id in CloseInit")), ctx_a)
      | some chan_id_on_b =>
        let core_event := IbcEvent.CloseInitChannel
          { port_id_on_a := msg.port_id_on_a
            chan_id_on_a := msg.chan_id_on_a
            port_id_on_b := chan_end_on_a.counterparty.port_id
            chan_id_on_b := chan_id_on_b
            conn_id_on_a := chan_end_on_a.connection_hops_first }
        let ctx_a := ctx_a.emit_ibc_event (IbcEvent.Message MessageKind.Channel)
        let ctx_a := ctx_a.emit_ibc_event core_event
        let ctx_a := extras.events.foldl (fun s e => s.emit_ibc_event (IbcEvent.Module e)) ctx_a
        let ctx_a := extras.log.foldl (fun s l => s.log_message l) ctx_a
        (Except.ok (), ctx_a)

/-- Dispatch wrapper running the close-init validation against an execution
state: validation reads the host stores through a shared reference in the
source, so it returns its result and the state it was given. -/
def run_chan_close_init_validate (ctx_a : ExecState) (mod : Module) (msg : MsgChannelCloseInit) :
    Except ContextError Unit × ExecState :=
  (chan_close_init_validate ctx_a.host mod msg, ctx_a)

/-! Channel query service (crates/ibc/src/services/channel.rs).  The gRPC
`Status` error type is modelled as `GrpcStatus`; each handler becomes a
function from a read-only query context and a request to
`Except GrpcStatus Response`. -/

/-- Error statuses produced by the query handlers (tonic `Status`). -/
inductive GrpcStatus where
  | invalid_argument (message : String)
  | not_found (message : String)
  deriving DecidableEq

/-- Modelled from the spec: identifier characters are ASCII alphanumerics or
one of the ICS-24 symbol characters. -/
def isValidIdChar (c : Char) : Bool :=
  c.isAlphanum || ['.', '_', '+', '-', '#', '[', ']', '<', '>'].contains c

/-- Modelled from the spec: identifiers are non-empty strings of valid
characters within per-kind length bounds. -/
def validate_identifier (s : String) (minLen maxLen : Nat) : Bool :=
  !s.isEmpty && minLen ≤ s.length && s.length ≤ maxLen && s.toList.all isValidIdChar

/-- Modelled from the spec: `ChannelId::from_str` accepts exactly the
lexically valid channel identifiers. -/
def ChannelId.from_str (s : String) : Option String :=
  if validate_identifier s 8 64 then some s else none

/-- Modelled from the spec: `PortId::from_str` accepts exactly the lexically
valid port identifiers. -/
def PortId.from_str (s : String) : Option String :=
  if validate_identifier s 2 128 then some s else none

/-- Path of a packet receipt (port id, channel id, sequence). -/
structure ReceiptPath where
  port_id : String
  channel_id : String
  sequence : Nat
  deriving DecidableEq

/-- Constructor mirroring `ReceiptPath::new`. -/
def ReceiptPath.new (port_id channel_id : String) (sequence : Nat) : ReceiptPath :=
  ⟨port_id, channel_id, sequence⟩

/-- Path of the next-receive sequence of a channel. -/
structure SeqRecvPath where
  port_id : String
  channel_id : String
  deriving DecidableEq

/-- Constructor mirroring `SeqRecvPath::new`. -/
def SeqRecvPath.new (port_id channel_id : String) : SeqRecvPath :=
  ⟨port_id, channel_id⟩

/-- Read-only context backing the query service (`QueryContext`): the
channel and per-channel stores as data, and the host-supplied list and
height operations as function fields. -/
structure QueryCtx where
  channels_store : List (ChannelEndPath × ChannelEnd)
  receipts : List ReceiptPath
  seq_recvs : List (SeqRecvPath × Nat)
  channel_ends_impl : Except ContextError (List (ChannelEndPath × ChannelEnd))
  unreceived_impl : ChannelEndPath → List Nat → Except ContextError (List Nat)
  host_height_impl : Except ContextError Height

/-- Read of a channel end in the query context. -/
def QueryCtx.channel_end (ctx : QueryCtx) (p : ChannelEndPath) : Except ContextError ChannelEnd :=
  match findIn ctx.channels_store p with
  | some ce => Except.ok ce
  | none => Except.error (ContextError.channel (ChannelError.ChannelNotFound p.port_id p.channel_id))

/-- Read of a packet receipt: receipts are presence-only, so the read
succeeds exactly when the path is stored. -/
def QueryCtx.get_packet_receipt (ctx : QueryCtx) (p : ReceiptPath) : Except ContextError Unit :=
  if p ∈ ctx.receipts then
    Except.ok ()
  else
    Except.error (ContextError.channel (ChannelError.Other "packet receipt not found"))

/-- Read of the next-receive sequence of a channel. -/
def QueryCtx.get_next_sequence_recv (ctx : QueryCtx) (p : SeqRecvPath) : Except ContextError Nat :=
  match findIn ctx.seq_recvs p with
  | some n => Except.ok n
  | none => Except.error (ContextError.channel (ChannelError.Other "next sequence recv not found"))

/-- Boolean success test on a result (Rust `Result::is_ok`). -/
def exceptIsOk {ε α : Type} : Except ε α → Bool
  | Except.ok _ => true
  | Except.error _ => false

/-- Response of the point-lookup Channel query: the channel end, a proof
placeholder and an optional proof height.  The wire type carries no field
for the current host height. -/
structure QueryChannelResponse where
  channel : Option ChannelEnd
  proof : List Nat
  proof_height : Option Height
  deriving DecidableEq

/-- Response of the list Channels query, carrying the current host height. -/
structure QueryChannelsResponse where
  channels : List (ChannelEndPath × ChannelEnd)
  pagination : Option Unit
  height : Option Height

/-- Response of the NextSequenceReceive query.  The wire type carries no
field for the current host height. -/
structure QueryNextSequenceReceiveResponse where
  next_sequence_receive : Nat
  proof : List Nat
  proof_height : Option Height
  deriving DecidableEq

/-- Response of the PacketReceipt query. -/
structure QueryPacketReceiptResponse where
  received : Bool
  proof : List Nat
  proof_height : Option Height
  deriving DecidableEq

/-- Response of the UnreceivedPackets query, carrying the current host
height. -/
structure QueryUnreceivedPacketsResponse where
  sequences : List Nat
  height : Option Height
  deriving DecidableEq

/-- Request of the Channel query. -/
structure QueryChannelRequest where
  port_id : String
  channel_id : String

/-- Request of the NextSequenceReceive query. -/
structure QueryNextSequenceReceiveRequest where
  port_id : String
  channel_id : String

/-- Request of the PacketReceipt query. -/
structure QueryPacketReceiptRequest where
  port_id : String
  channel_id : String
  sequence : Nat

/-- Request of the UnreceivedPackets query. -/
structure QueryUnreceivedPacketsRequest where
  port_id : String
  channel_id : String
  packet_commitment_sequences : List Nat

/-- Embedding of the `channel` point-lookup handler: parse both ids, read
the channel end, and answer with `proof_height := none`. -/
def ChannelQueryServer.channel (ctx : QueryCtx) (request : QueryChannelRequest) :
    Except GrpcStatus QueryChannelResponse :=
  match ChannelId.from_str request.channel_id with
  | none => Except.error (GrpcStatus.invalid_argument ("Invalid channel id: " ++ request.channel_id))
  | some channel_id =>
    match PortId.from_str request.port_id with
    | none => Except.error (GrpcStatus.invalid_argument ("Invalid port id: " ++ request.port_id))
    | some port_id =>
      let channel_end_path := ChannelEndPath.new port_id channel_id
      match ctx.channel_end channel_end_path with
      | Except.error _ =>
        Except.error (GrpcStatus.not_found ("Channel end not found for channel " ++ channel_id))
      | Except.ok channel_end =>
        Except.ok { channel := some channel_end, proof := [], proof_height := none }

/-- Embedding of the `channels` list handler: read all channel ends and
answer together with the current host height. -/
def ChannelQueryServer.channels (ctx : QueryCtx) :
    Except GrpcStatus QueryChannelsResponse :=
  match ctx.channel_ends_impl with
  | Except.error _ => Except.error (GrpcStatus.not_found "Channel ends not found")
  | Except.ok channel_ends =>
    match ctx.host_height_impl with
    | Except.error _ => Except.error (GrpcStatus.not_found "Host chain height not found")
    | Except.ok h =>
      Except.ok { channels := channel_ends, pagination := none, height := some h }

/-- Embedding of the `packet_receipt` handler: parse both ids, probe the
receipt store, and answer `received := is_ok` of the probe; a missing
receipt is not an error. -/
def ChannelQueryServer.packet_receipt (ctx : QueryCtx) (request : QueryPacketReceiptRequest) :
    Except GrpcStatus QueryPacketReceiptResponse :=
  match ChannelId.from_str request.channel_id with
  | none => Except.error (GrpcStatus.invalid_argument ("Invalid channel id: " ++ request.channel_id))
  | some channel_id =>
    match PortId.from_str request.port_id with
    | none => Except.error (GrpcStatus.invalid_argument ("Invalid port id: " ++ request.port_id))
    | some port_id =>
      let sequence := request.sequence
      let receipt_path := ReceiptPath.new port_id channel_id sequence
      let packet_receipt_data := ctx.get_packet_receipt receipt_path
      Except.ok { received := exceptIsOk packet_receipt_data, proof := [], proof_height := none }

/-- Embedding of the `unreceived_packets` handler: parse both ids, pass the
requested sequences to the context, and answer together with the current
host height.  The stored channel end, in particular its ordering, is never
consulted. -/
def ChannelQueryServer.unreceived_packets (ctx : QueryCtx)
    (request : QueryUnreceivedPacketsRequest) :
    Except GrpcStatus QueryUnreceivedPacketsResponse :=
  match ChannelId.from_str request.channel_id with
  | none => Except.error (GrpcStatus.invalid_argument ("Invalid channel id: " ++ request.channel_id))
  | some channel_id =>
    match PortId.from_str request.port_id with
    | none => Except.error (GrpcStatus.invalid_argument ("Invalid port id: " ++ request.port_id))
    | some port_id =>
      let sequences := request.packet_commitment_sequences
      let channel_end_path := ChannelEndPath.new port_id channel_id
      match ctx.unreceived_impl channel_end_path sequences with
      | Except.error _ =>
        Except.error (GrpcStatus.not_found ("Unreceived packets not found for channel " ++ channel_id))
      | Except.ok unreceived =>
        match ctx.host_height_impl with
        | Except.error _ => Except.error (GrpcStatus.not_found "Host chain height not found")
        | Except.ok h =>
          Except.ok { sequences := unreceived, height := some h }

/-- Embedding of the `next_sequence_receive` handler: parse both ids, read
the next-receive sequence, and answer with `proof_height := none`. -/
def ChannelQueryServer.next_sequence_receive (ctx : QueryCtx)
    (request : QueryNextSequenceReceiveRequest) :
    Except GrpcStatus QueryNextSequenceReceiveResponse :=
  match ChannelId.from_str request.channel_id with
  | none => Except.error (GrpcStatus.invalid_argument ("Invalid channel id: " ++ request.channel_id))
  | some channel_id =>
    match PortId.from_str request.port_id with
    | none => Except.error (GrpcStatus.invalid_argument ("Invalid port id: " ++ request.port_id))
    | some port_id =>
      let next_seq_recv_path := SeqRecvPath.new port_id channel_id
      match ctx.get_next_sequence_recv next_seq_recv_path with
      | Except.error _ =>
        Except.error (GrpcStatus.not_found ("Next sequence receive not found for channel " ++ channel_id))
      | Except.ok next_sequence_recv =>
        Except.ok { next_sequence_receive := next_sequence_recv, proof := [], proof_height := none }

/-! Helper lemmas shared by the theorems below. -/

/-- Bind on an ok result reduces to the continuation. -/
theorem except_bind_ok {ε α β : Type} (a : α) (f : α → Except ε β) :
    (Except.ok a >>= f : Except ε β) = f a := rfl

/-- Bind on an error short-circuits. -/
theorem except_bind_error {ε α β : Type} (e : ε) (f : α → Except ε β) :
    ((Except.error e : Except ε α) >>= f) = Except.error e := rfl

/-- Active statuses are exactly `Active`. -/
theorem status_is_active_iff (st : Status) : st.is_active = true ↔ st = Status.Active := by
  cases st <;> simp [Status.is_active]

/-- Folding the module-event emissions appends the mapped events to the
trace and leaves the host untouched. -/
theorem foldl_emit_module_events (l : List ModuleEvent) (s : ExecState) :
    (l.foldl (fun s e => s.emit_ibc_event (IbcEvent.Module e)) s)
      = { host := s.host,
          emissions := s.emissions ++ l.map (fun e => Emission.event (IbcEvent.Module e)) } := by
  induction l generalizing s with
  | nil => simp
  | cons e rest ih =>
    rw [List.foldl_cons, ih]
    simp [ExecState.emit_ibc_event]

/-- Folding the module-log emissions appends the mapped log lines to the
trace and leaves the host untouched. -/
theorem foldl_log_messages (l : List String) (s : ExecState) :
    (l.foldl (fun s m => s.log_message m) s)
      = { host := s.host, emissions := s.emissions ++ l.map Emission.log } := by
  induction l generalizing s with
  | nil => simp
  | cons m rest ih =>
    rw [List.foldl_cons, ih]
    simp [ExecState.log_message]

/-- Characterization of a successful close-init execution: with the module
callback returning extras and a stored channel end whose counterparty
channel id is set, the handler stores the closed channel end and emits the
success log line, the core Message and CloseInitChannel events, then the
module events and log lines. -/
theorem chan_close_init_execute_ok_spec
    (ctx_a : ExecState) (mod : Module) (msg : MsgChannelCloseInit)
    (extras : ModuleExtras) (ce : ChannelEnd) (chan_id_on_b : String)
    (hmod : mod.on_chan_close_init_execute msg.port_id_on_a msg.chan_id_on_a = Except.ok extras)
    (hce : HostState.channel_end ctx_a.host (ChannelEndPath.new msg.port_id_on_a msg.chan_id_on_a)
            = Except.ok ce)
    (hcp : ce.remote.channel_id = some chan_id_on_b) :
    chan_close_init_execute ctx_a mod msg =
      (Except.ok (),
       { host := { ctx_a.host with
             channels := (ChannelEndPath.new msg.port_id_on_a msg.chan_id_on_a,
                          ce.set_state ChannelState.Closed) :: ctx_a.host.channels },
         emissions := ctx_a.emissions ++
           ([Emission.log "success: channel close init",
             Emission.event (IbcEvent.Message MessageKind.Channel),
             Emission.event (IbcEvent.CloseInitChannel
               { port_id_on_a := msg.port_id_on_a,
                 chan_id_on_a := msg.chan_id_on_a,
                 port_id_on_b := ce.remote.port_id,
                 chan_id_on_b := chan_id_on_b,
                 conn_id_on_a := ce.connection_hops_first })]
            ++ extras.events.map (fun e => Emission.event (IbcEvent.Module e))
            ++ extras.log.map Emission.log) }) := by
  simp only [chan_close_init_execute, hmod, hce, ChannelEnd.counterparty, hcp]
  rw [foldl_emit_module_events, foldl_log_messages]
  simp [ExecState.store_channel, ExecState.log_message, ExecState.emit_ibc_event,
    List.append_assoc]

/-- Inversion of a successful bind: the first action succeeded and the
continuation succeeded on its value. -/
theorem except_bind_eq_ok {ε α β : Type} {x : Except ε α} {f : α → Except ε β} {b : β}
    (h : (x >>= f) = Except.ok b) : ∃ a, x = Except.ok a ∧ f a = Except.ok b := by
  cases x with
  | error e => exact absurd h (by rw [except_bind_error]; exact fun hc => Except.noConfusion hc)
  | ok a => exact ⟨a, rfl, h⟩

/-- Inversion of a successful signer check. -/
theorem validate_message_signer_ok_inv {ctx : HostState} {s : String} {u : Unit}
    (h : ctx.validate_message_signer s = Except.ok u) : ctx.signer_ok s = true := by
  cases hs : ctx.signer_ok s with
  | true => rfl
  | false =>
    rw [HostState.validate_message_signer, hs] at h
    simp at h

/-- Inversion of a successful not-closed check. -/
theorem verify_not_closed_ok_inv {ce : ChannelEnd} {u : Unit}
    (h : ce.verify_not_closed = Except.ok u) : ce.state ≠ ChannelState.Closed := by
  intro hcl
  rw [ChannelEnd.verify_not_closed, if_pos hcl] at h
  exact Except.noConfusion h

/-- Inversion of a successful hops-length check. -/
theorem verify_connection_hops_length_ok_inv {ce : ChannelEnd} {u : Unit}
    (h : ce.verify_connection_hops_length = Except.ok u) : ce.connection_hops.length = 1 := by
  by_cases hl : ce.connection_hops.length = 1
  · exact hl
  · rw [ChannelEnd.verify_connection_hops_length, if_neg hl] at h
    exact Except.noConfusion h

/-- Inversion of a successful connection-state check. -/
theorem verify_state_matches_ok_inv {c : ConnectionEnd} {expected : ConnectionState} {u : Unit}
    (h : c.verify_state_matches expected = Except.ok u) : c.state = expected := by
  by_cases hs : c.state = expected
  · exact hs
  · rw [ConnectionEnd.verify_state_matches, if_neg hs] at h
    exact Except.noConfusion h

/-- Inversion of a successful close-init validation: every check of the
private `validate` function passed, in particular the channel exists and is
not closed, its connection hops have length one, the first hop is an Open
connection, and the client of that connection is Active. -/
theorem validate_ok_inv (ctx : HostState) (msg : MsgChannelCloseInit)
    (hok : validate ctx msg = Except.ok ()) :
    ctx.signer_ok msg.signer = true ∧
    ∃ ce, HostState.channel_end ctx (ChannelEndPath.new msg.port_id_on_a msg.chan_id_on_a)
            = Except.ok ce ∧
      ce.state ≠ ChannelState.Closed ∧
      ce.connection_hops.length = 1 ∧
      ∃ conn, HostState.connection_end ctx ce.connection_hops_first = Except.ok conn ∧
        conn.state = ConnectionState.Open ∧
        ∃ cs, HostState.client_state ctx conn.client_id = Except.ok cs ∧
          cs.status = Except.ok Status.Active := by
  unfold validate at hok
  obtain ⟨u1, hsig, hok⟩ := except_bind_eq_ok hok
  obtain ⟨ce, hce, hok⟩ := except_bind_eq_ok hok
  obtain ⟨u2, hncl, hok⟩ := except_bind_eq_ok hok
  obtain ⟨u3, hlen, hok⟩ := except_bind_eq_ok hok
  obtain ⟨conn, hconn, hok⟩ := except_bind_eq_ok hok
  obtain ⟨u4, hcopen, hok⟩ := except_bind_eq_ok hok
  obtain ⟨cs, hcs, hok⟩ := except_bind_eq_ok hok
  obtain ⟨st, hst, hok⟩ := except_bind_eq_ok hok
  refine ⟨validate_message_signer_ok_inv hsig,
    ce, hce, verify_not_closed_ok_inv hncl, verify_connection_hops_length_ok_inv hlen,
    conn, hconn, verify_state_matches_ok_inv hcopen,
    cs, hcs, ?_⟩
  cases hact : st.is_active with
  | true => rw [(status_is_active_iff st).mp hact] at hst; exact hst
  | false => rw [hact] at hok; simp at hok

/-- Computation of the private `validate` function when every check before
the client status passes and the status is not active: the result is the
ClientNotActive error carrying that status. -/
theorem validate_client_not_active
    (ctx : HostState) (msg : MsgChannelCloseInit) (ce : ChannelEnd) (conn : ConnectionEnd)
    (cs : ClientState) (st : Status)
    (hsig : ctx.signer_ok msg.signer = true)
    (hce : findIn ctx.channels (ChannelEndPath.new msg.port_id_on_a msg.chan_id_on_a) = some ce)
    (hncl : ce.state ≠ ChannelState.Closed)
    (hlen : ce.connection_hops.length = 1)
    (hconn : findIn ctx.connections ce.connection_hops_first = some conn)
    (hcopen : conn.state = ConnectionState.Open)
    (hcs : findIn ctx.clients conn.client_id = some cs)
    (hst : cs.status = Except.ok st)
    (hina : st.is_active = false) :
    validate ctx msg = Except.error (ContextError.client (ClientError.ClientNotActive st)) := by
  have h1 : ctx.validate_message_signer msg.signer = Except.ok () := by
    rw [HostState.validate_message_signer, hsig]; rfl
  have h2 : HostState.channel_end ctx (ChannelEndPath.new msg.port_id_on_a msg.chan_id_on_a)
      = Except.ok ce := by rw [HostState.channel_end, hce]
  have h3 : ce.verify_not_closed = Except.ok () := by
    rw [ChannelEnd.verify_not_closed, if_neg hncl]
  have h4 : ce.verify_connection_hops_length = Except.ok () := by
    rw [ChannelEnd.verify_connection_hops_length, if_pos hlen]
  have h5 : HostState.connection_end ctx ce.connection_hops_first = Except.ok conn := by
    rw [HostState.connection_end, hconn]
  have h6 : conn.verify_state_matches ConnectionState.Open = Except.ok () := by
    rw [ConnectionEnd.verify_state_matches, if_pos hcopen]
  have h7 : HostState.client_state ctx conn.client_id = Except.ok cs := by
    rw [HostState.client_state, hcs]
  simp only [validate, h1, h2, h3, h4, h5, h6, h7, hst, hina, except_bind_ok,
    Bool.false_eq_true, if_false]

/-- A successful `chan_close_init_validate` implies a successful private
validation. -/
theorem chan_close_init_validate_ok_inv (ctx : HostState) (mod : Module)
    (msg : MsgChannelCloseInit)
    (hok : chan_close_init_validate ctx mod msg = Except.ok ()) :
    validate ctx msg = Except.ok () := by
  unfold chan_close_init_validate at hok
  cases hv : validate ctx msg with
  | error e => rw [hv, except_bind_error] at hok; exact Except.noConfusion hok
  | ok u => cases u; rfl

/-- A failing private validation propagates unchanged through
`chan_close_init_validate`. -/
theorem chan_close_init_validate_error_of_validate (ctx : HostState) (mod : Module)
    (msg : MsgChannelCloseInit) (e : ContextError)
    (hv : validate ctx msg = Except.error e) :
    chan_close_init_validate ctx mod msg = Except.error e := by
  unfold chan_close_init_validate
  rw [hv, except_bind_error]

/-! Concrete fixtures used by the witness theorems. -/

/-- Concrete module event used by the witnesses. -/
def wModuleEvent : ModuleEvent := { kind := "test", attributes := [] }

/-- Concrete open channel end used by the witnesses. -/
def wOpenChannel : ChannelEnd :=
  { state := ChannelState.Open, ordering := Order.Unordered,
    remote := { port_id := "transfer", channel_id := some "channel-9" },
    connection_hops := ["connection-0"], version := "ics20-1" }

/-- Concrete Init-state channel end without a counterparty channel id. -/
def wInitChannel : ChannelEnd :=
  { state := ChannelState.Init, ordering := Order.Unordered,
    remote := { port_id := "transfer", channel_id := none },
    connection_hops := ["connection-0"], version := "ics20-1" }

/-- Concrete closed channel end. -/
def wClosedChannel : ChannelEnd := wOpenChannel.set_state ChannelState.Closed

/-- Concrete open connection end. -/
def wConn : ConnectionEnd :=
  { state := ConnectionState.Open, client_id := "07-tendermint-0",
    versions := ["1"], delay_period := 0 }

/-- Concrete active client. -/
def wActiveClient : ClientState := { status := Except.ok Status.Active }

/-- Concrete frozen client. -/
def wFrozenClient : ClientState := { status := Except.ok Status.Frozen }

/-- Concrete channel path. -/
def wPath : ChannelEndPath := ChannelEndPath.new "transfer" "channel-0"

/-- Concrete close-init message. -/
def wMsg : MsgChannelCloseInit :=
  { port_id_on_a := "transfer", chan_id_on_a := "channel-0", signer := "alice" }

/-- Concrete host state with an open channel over an open connection with an
active client. -/
def wHost : HostState :=
  { channels := [(wPath, wOpenChannel)],
    connections := [("connection-0", wConn)],
    clients := [("07-tendermint-0", wActiveClient)],
    signer_ok := fun _ => true }

/-- Variant of the host state whose stored channel is already closed. -/
def wHostClosed : HostState := { wHost with channels := [(wPath, wClosedChannel)] }

/-- Variant of the host state whose client is frozen. -/
def wHostFrozen : HostState := { wHost with clients := [("07-tendermint-0", wFrozenClient)] }

/-- Variant of the host state whose stored channel is in state Init. -/
def wHostInit : HostState := { wHost with channels := [(wPath, wInitChannel)] }

/-- Module whose callbacks succeed, returning one event and one log line. -/
def wModOk : Module :=
  { on_chan_close_init_validate := fun _ _ => Except.ok (),
    on_chan_close_init_execute := fun _ _ =>
      Except.ok { events := [wModuleEvent], log := ["message received"] } }

/-- Module whose callbacks fail. -/
def wModErr : Module :=
  { on_chan_close_init_validate := fun _ _ =>
      Except.error (ContextError.channel (ChannelError.Other "validate callback failed")),
    on_chan_close_init_execute := fun _ _ =>
      Except.error (ContextError.channel (ChannelError.Other "execute callback failed")) }

/-- Execution state over the open-channel host with an empty trace. -/
def wExec : ExecState := { host := wHost, emissions := [] }

/-- Execution state over the Init-channel host with an empty trace. -/
def wExecInit : ExecState := { host := wHostInit, emissions := [] }

/-! Claim theorems. -/

/-- C1: for every MsgChannelCloseInit whose stored channel end is Open with
its counterparty channel id set, whose first connection hop refers to an
Open connection with an active client, and whose module callback succeeds,
chan_close_init_execute stores the channel end with state Closed (all other
fields unchanged, via set_state) and emits the core Message(Channel) event
followed by the CloseInitChannel event carrying the local port and channel
ids, the counterparty port and channel ids, and the connection id. -/
theorem chan_close_init_execute_closes_open_channel
    (ctx_a : ExecState) (mod : Module) (msg : MsgChannelCloseInit)
    (extras : ModuleExtras) (ce : ChannelEnd) (chan_id_on_b conn_id : String)
    (conn : ConnectionEnd) (cs : ClientState)
    (hce : findIn ctx_a.host.channels (ChannelEndPath.new msg.port_id_on_a msg.chan_id_on_a)
            = some ce)
    (_hopen : ce.state = ChannelState.Open)
    (hcp : ce.remote.channel_id = some chan_id_on_b)
    (hhops : ce.connection_hops = [conn_id])
    (_hconn : findIn ctx_a.host.connections conn_id = some conn)
    (_hconnopen : conn.state = ConnectionState.Open)
    (_hcs : findIn ctx_a.host.clients conn.client_id = some cs)
    (_hactive : cs.status = Except.ok Status.Active)
    (hmod : mod.on_chan_close_init_execute msg.port_id_on_a msg.chan_id_on_a = Except.ok extras) :
    chan_close_init_execute ctx_a mod msg =
      (Except.ok (),
       { host := { ctx_a.host with
             channels := (ChannelEndPath.new msg.port_id_on_a msg.chan_id_on_a,
                          ce.set_state ChannelState.Closed) :: ctx_a.host.channels },
         emissions := ctx_a.emissions ++
           ([Emission.log "success: channel close init",
             Emission.event (IbcEvent.Message MessageKind.Channel),
             Emission.event (IbcEvent.CloseInitChannel
               { port_id_on_a := msg.port_id_on_a,
                 chan_id_on_a := msg.chan_id_on_a,
                 port_id_on_b := ce.remote.port_id,
                 chan_id_on_b := chan_id_on_b,
                 conn_id_on_a := conn_id })]
            ++ extras.events.map (fun e => Emission.event (IbcEvent.Module e))
            ++ extras.log.map Emission.log) }) := by
  have hce2 : HostState.channel_end ctx_a.host (ChannelEndPath.new msg.port_id_on_a msg.chan_id_on_a)
      = Except.ok ce := by rw [HostState.channel_end, hce]
  rw [chan_close_init_execute_ok_spec ctx_a mod msg extras ce chan_id_on_b hmod hce2 hcp]
  simp [ChannelEnd.connection_hops_first, hhops]

/-- Witness for C1 at a concrete host state, module and message. -/
theorem chan_close_init_execute_closes_open_channel_witness :
    chan_close_init_execute wExec wModOk wMsg =
      (Except.ok (),
       { host := { wHost with
             channels := (wPath, wOpenChannel.set_state ChannelState.Closed) :: wHost.channels },
         emissions := [Emission.log "success: channel close init",
                       Emission.event (IbcEvent.Message MessageKind.Channel),
                       Emission.event (IbcEvent.CloseInitChannel
                         { port_id_on_a := "transfer", chan_id_on_a := "channel-0",
                           port_id_on_b := "transfer", chan_id_on_b := "channel-9",
                           conn_id_on_a := "connection-0" }),
                       Emission.event (IbcEvent.Module wModuleEvent),
                       Emission.log "message received"] }) := by
  have h := chan_close_init_execute_closes_open_channel wExec wModOk wMsg
      { events := [wModuleEvent], log := ["message received"] }
      wOpenChannel "channel-9" "connection-0" wConn wActiveClient
      rfl rfl rfl rfl rfl rfl rfl rfl rfl
  simpa using h

/-- C4: for every MsgChannelCloseInit addressing a stored channel end whose
state is Closed, chan_close_init_validate returns an error. -/
theorem chan_close_init_validate_rejects_closed_channel
    (ctx : HostState) (mod : Module) (msg : MsgChannelCloseInit) (ce : ChannelEnd)
    (hce : findIn ctx.channels (ChannelEndPath.new msg.port_id_on_a msg.chan_id_on_a) = some ce)
    (hclosed : ce.state = ChannelState.Closed) :
    ∃ e, chan_close_init_validate ctx mod msg = Except.error e := by
  cases hv : chan_close_init_validate ctx mod msg with
  | error e => exact ⟨e, rfl⟩
  | ok u =>
    cases u
    obtain ⟨-, ce2, hce2, hncl, -⟩ :=
      validate_ok_inv ctx msg (chan_close_init_validate_ok_inv ctx mod msg hv)
    simp only [HostState.channel_end, hce] at hce2
    injection hce2 with h2
    exact absurd (h2 ▸ hclosed) hncl

/-- Witness for C4 at a concrete host state whose channel is Closed. -/
theorem chan_close_init_validate_rejects_closed_channel_witness :
    ∃ e, chan_close_init_validate wHostClosed wModOk wMsg = Except.error e :=
  chan_close_init_validate_rejects_closed_channel wHostClosed wModOk wMsg wClosedChannel rfl rfl

/-- C5: chan_close_init_validate succeeds only if the connection hops have
the required length, the connection at the first hop is Open, and the
client of that connection is Active; and when every earlier check passes
but the client status is not active (frozen or expired), validation fails
with the ClientNotActive error carrying that status. -/
theorem chan_close_init_validate_requires_open_connection_and_active_client
    (ctx : HostState) (mod : Module) (msg : MsgChannelCloseInit) :
    (chan_close_init_validate ctx mod msg = Except.ok () →
      ∃ ce, HostState.channel_end ctx (ChannelEndPath.new msg.port_id_on_a msg.chan_id_on_a)
              = Except.ok ce ∧
        ce.connection_hops.length = 1 ∧
        ∃ conn, HostState.connection_end ctx ce.connection_hops_first = Except.ok conn ∧
          conn.state = ConnectionState.Open ∧
          ∃ cs, HostState.client_state ctx conn.client_id = Except.ok cs ∧
            cs.status = Except.ok Status.Active) ∧
    (∀ (ce : ChannelEnd) (conn : ConnectionEnd) (cs : ClientState) (st : Status),
      ctx.signer_ok msg.signer = true →
      findIn ctx.channels (ChannelEndPath.new msg.port_id_on_a msg.chan_id_on_a) = some ce →
      ce.state ≠ ChannelState.Closed →
      ce.connection_hops.length = 1 →
      findIn ctx.connections ce.connection_hops_first = some conn →
      conn.state = ConnectionState.Open →
      findIn ctx.clients conn.client_id = some cs →
      cs.status = Except.ok st →
      st.is_active = false →
      chan_close_init_validate ctx mod msg =
        Except.error (ContextError.client (ClientError.ClientNotActive st))) := by
  constructor
  · intro hok
    obtain ⟨-, ce, hce, -, hlen, rest⟩ :=
      validate_ok_inv ctx msg (chan_close_init_validate_ok_inv ctx mod msg hok)
    exact ⟨ce, hce, hlen, rest⟩
  · intro ce conn cs st h1 h2 h3 h4 h5 h6 h7 h8 h9
    exact chan_close_init_validate_error_of_validate ctx mod msg _
      (validate_client_not_active ctx msg ce conn cs st h1 h2 h3 h4 h5 h6 h7 h8 h9)

/-- Witness for C5 at a concrete host state whose client is frozen. -/
theorem chan_close_init_validate_requires_open_connection_and_active_client_witness :
    chan_close_init_validate wHostFrozen wModOk wMsg =
      Except.error (ContextError.client (ClientError.ClientNotActive Status.Frozen)) :=
  (chan_close_init_validate_requires_open_connection_and_active_client wHostFrozen wModOk wMsg).2
    wOpenChannel wConn wFrozenClient Status.Frozen rfl rfl (by decide) rfl rfl rfl rfl rfl rfl

/-- C6: a failing module callback propagates: a validate-callback error
makes chan_close_init_validate fail, and an execute-callback error makes
chan_close_init_execute return that error before any store_channel write,
leaving the state unchanged. -/
theorem chan_close_init_callback_error_propagates
    (ctx : HostState) (es : ExecState) (mod : Module) (msg : MsgChannelCloseInit)
    (e1 e2 : ContextError) :
    (mod.on_chan_close_init_validate msg.port_id_on_a msg.chan_id_on_a = Except.error e1 →
      chan_close_init_validate ctx mod msg ≠ Except.ok ()) ∧
    (mod.on_chan_close_init_execute msg.port_id_on_a msg.chan_id_on_a = Except.error e2 →
      chan_close_init_execute es mod msg = (Except.error e2, es)) := by
  constructor
  · intro hcb hok
    have hv := chan_close_init_validate_ok_inv ctx mod msg hok
    unfold chan_close_init_validate at hok
    rw [hv, except_bind_ok, hcb] at hok
    exact Except.noConfusion hok
  · intro hcb
    unfold chan_close_init_execute
    rw [hcb]

/-- Witness for C6 at a concrete module whose callbacks fail. -/
theorem chan_close_init_callback_error_propagates_witness :
    chan_close_init_validate wHost wModErr wMsg ≠ Except.ok () ∧
    chan_close_init_execute wExec wModErr wMsg =
      (Except.error (ContextError.channel (ChannelError.Other "execute callback failed")), wExec) := by
  have h := chan_close_init_callback_error_propagates wHost wExec wModErr wMsg
      (ContextError.channel (ChannelError.Other "validate callback failed"))
      (ContextError.channel (ChannelError.Other "execute callback failed"))
  exact ⟨h.1 rfl, h.2 rfl⟩

/-- C7: a successful close-init execution emits, after the success log
line, the core Message(Channel) event first, then the CloseInitChannel
event, then the module events in the order the module returned them, then
the module log lines. -/
theorem chan_close_init_execute_emission_order
    (ctx_a : ExecState) (mod : Module) (msg : MsgChannelCloseInit)
    (extras : ModuleExtras) (ce : ChannelEnd) (chan_id_on_b : String)
    (hmod : mod.on_chan_close_init_execute msg.port_id_on_a msg.chan_id_on_a = Except.ok extras)
    (hce : HostState.channel_end ctx_a.host (ChannelEndPath.new msg.port_id_on_a msg.chan_id_on_a)
            = Except.ok ce)
    (hcp : ce.remote.channel_id = some chan_id_on_b) :
    (chan_close_init_execute ctx_a mod msg).2.emissions =
      ctx_a.emissions ++
        ([Emission.log "success: channel close init",
          Emission.event (IbcEvent.Message MessageKind.Channel),
          Emission.event (IbcEvent.CloseInitChannel
            { port_id_on_a := msg.port_id_on_a,
              chan_id_on_a := msg.chan_id_on_a,
              port_id_on_b := ce.remote.port_id,
              chan_id_on_b := chan_id_on_b,
              conn_id_on_a := ce.connection_hops_first })]
         ++ extras.events.map (fun e => Emission.event (IbcEvent.Module e))
         ++ extras.log.map Emission.log) := by
  rw [chan_close_init_execute_ok_spec ctx_a mod msg extras ce chan_id_on_b hmod hce hcp]

/-- Witness for C7 at a concrete host state, module and message. -/
theorem chan_close_init_execute_emission_order_witness :
    (chan_close_init_execute wExec wModOk wMsg).2.emissions =
      [Emission.log "success: channel close init",
       Emission.event (IbcEvent.Message MessageKind.Channel),
       Emission.event (IbcEvent.CloseInitChannel
         { port_id_on_a := "transfer", chan_id_on_a := "channel-0",
           port_id_on_b := "transfer", chan_id_on_b := "channel-9",
           conn_id_on_a := "connection-0" }),
       Emission.event (IbcEvent.Module wModuleEvent),
       Emission.log "message received"] := by
  have h := chan_close_init_execute_emission_order wExec wModOk wMsg
      { events := [wModuleEvent], log := ["message received"] } wOpenChannel "channel-9"
      rfl rfl rfl
  simpa using h

/-- C8: close-init validation performs no writes and emits nothing: run
against any execution state it returns that state unchanged, with the same
host stores and the same emission trace, whether it succeeds or fails. -/
theorem chan_close_init_validate_no_writes_no_events
    (ctx_a : ExecState) (mod : Module) (msg : MsgChannelCloseInit) :
    (run_chan_close_init_validate ctx_a mod msg).2 = ctx_a ∧
    (run_chan_close_init_validate ctx_a mod msg).2.host = ctx_a.host ∧
    (run_chan_close_init_validate ctx_a mod msg).2.emissions = ctx_a.emissions :=
  ⟨rfl, rfl, rfl⟩

/-- C9: when the stored channel end has no counterparty channel id (state
Init) but the module callback and the channel read succeed, the execute
handler first stores the channel end with state Closed (and logs the
success line) and then returns a ChannelError::Other — a state write
followed by an error in the same call. -/
theorem chan_close_init_execute_writes_then_errors
    (ctx_a : ExecState) (mod : Module) (msg : MsgChannelCloseInit)
    (extras : ModuleExtras) (ce : ChannelEnd)
    (hmod : mod.on_chan_close_init_execute msg.port_id_on_a msg.chan_id_on_a = Except.ok extras)
    (hce : HostState.channel_end ctx_a.host (ChannelEndPath.new msg.port_id_on_a msg.chan_id_on_a)
            = Except.ok ce)
    (hnone : ce.remote.channel_id = none) :
    chan_close_init_execute ctx_a mod msg =
      (Except.error (ContextError.channel (ChannelError.Other
         "internal error: ChannelEnd does not have a counterparty channel id in CloseInit")),
       { host := { ctx_a.host with
             channels := (ChannelEndPath.new msg.port_id_on_a msg.chan_id_on_a,
                          ce.set_state ChannelState.Closed) :: ctx_a.host.channels },
         emissions := ctx_a.emissions ++ [Emission.log "success: channel close init"] }) := by
  simp only [chan_close_init_execute, hmod, hce, ChannelEnd.counterparty, hnone,
    ExecState.store_channel, ExecState.log_message]

/-- Witness for C9 at a concrete host state whose channel is in state Init. -/
theorem chan_close_init_execute_writes_then_errors_witness :
    chan_close_init_execute wExecInit wModOk wMsg =
      (Except.error (ContextError.channel (ChannelError.Other
         "internal error: ChannelEnd does not have a counterparty channel id in CloseInit")),
       { host := { wHostInit with
             channels := (wPath, wInitChannel.set_state ChannelState.Closed) :: wHostInit.channels },
         emissions := [Emission.log "success: channel close init"] }) := by
  have h := chan_close_init_execute_writes_then_errors wExecInit wModOk wMsg
      { events := [wModuleEvent], log := ["message received"] } wInitChannel rfl rfl rfl
  simpa using h

/-! Fixtures and claim theorems for the query service. -/

/-- Concrete ordered channel end. -/
def wOrderedChannel : ChannelEnd := { wOpenChannel with ordering := Order.Ordered }

/-- Concrete query context: an open channel, one stored receipt, a next
receive sequence, an echoing unreceived-packets implementation and a fixed
host height. -/
def wQCtx : QueryCtx :=
  { channels_store := [(wPath, wOpenChannel)],
    receipts := [ReceiptPath.new "transfer" "channel-0" 1],
    seq_recvs := [(SeqRecvPath.new "transfer" "channel-0", 5)],
    channel_ends_impl := Except.ok [(wPath, wOpenChannel)],
    unreceived_impl := fun _ seqs => Except.ok seqs,
    host_height_impl := Except.ok ⟨1, 5⟩ }

/-- Variant of the query context whose stored channel is Ordered. -/
def wQCtxOrdered : QueryCtx := { wQCtx with channels_store := [(wPath, wOrderedChannel)] }

/-- Concrete Channel query request. -/
def wChannelReq : QueryChannelRequest := { port_id := "transfer", channel_id := "channel-0" }

/-- Concrete NextSequenceReceive query request. -/
def wNextSeqReq : QueryNextSequenceReceiveRequest :=
  { port_id := "transfer", channel_id := "channel-0" }

/-- Concrete PacketReceipt query request. -/
def wReceiptReq : QueryPacketReceiptRequest :=
  { port_id := "transfer", channel_id := "channel-0", sequence := 1 }

/-- Concrete UnreceivedPackets query request. -/
def wUnreceivedReq : QueryUnreceivedPacketsRequest :=
  { port_id := "transfer", channel_id := "channel-0", packet_commitment_sequences := [1, 2, 3] }

/-- C2 counterexample: with an Ordered channel stored at the addressed
path, the unreceived_packets handler succeeds instead of returning an
error. -/
theorem unreceived_packets_ordered_succeeds :
    (findIn wQCtxOrdered.channels_store wPath = some wOrderedChannel ∧
     wOrderedChannel.ordering = Order.Ordered) ∧
    ChannelQueryServer.unreceived_packets wQCtxOrdered wUnreceivedReq =
      Except.ok { sequences := [1, 2, 3], height := some ⟨1, 5⟩ } :=
  ⟨⟨rfl, rfl⟩, rfl⟩

/-- C2 amended: the unreceived_packets handler never inspects the stored
channel end or its ordering; whenever the identifiers parse and the context
reports a sequence list and a host height, the handler succeeds with
exactly those, on Ordered channels as on Unordered ones. -/
theorem unreceived_packets_ignores_ordering
    (ctx : QueryCtx) (request : QueryUnreceivedPacketsRequest) (cid pid : String)
    (l : List Nat) (h : Height)
    (hcid : ChannelId.from_str request.channel_id = some cid)
    (hpid : PortId.from_str request.port_id = some pid)
    (hun : ctx.unreceived_impl (ChannelEndPath.new pid cid) request.packet_commitment_sequences
            = Except.ok l)
    (hh : ctx.host_height_impl = Except.ok h) :
    ChannelQueryServer.unreceived_packets ctx request =
      Except.ok { sequences := l, height := some h } := by
  simp only [ChannelQueryServer.unreceived_packets, hcid, hpid, hun, hh]

/-- Witness for the amended C2 at the Ordered-channel context. -/
theorem unreceived_packets_ignores_ordering_witness :
    ChannelQueryServer.unreceived_packets wQCtxOrdered wUnreceivedReq =
      Except.ok { sequences := [1, 2, 3], height := some ⟨1, 5⟩ } :=
  unreceived_packets_ignores_ordering wQCtxOrdered wUnreceivedReq "channel-0" "transfer"
    [1, 2, 3] ⟨1, 5⟩ rfl rfl rfl rfl

/-- C3 counterexample: the host has a current height, yet the successful
point-lookup channel query answers with proof_height none — its wire type
carries no field for the host height at all. -/
theorem channel_query_response_lacks_height :
    wQCtx.host_height_impl = Except.ok ⟨1, 5⟩ ∧
    ChannelQueryServer.channel wQCtx wChannelReq =
      Except.ok { channel := some wOpenChannel, proof := [], proof_height := none } :=
  ⟨rfl, rfl⟩

/-- C3 amended: list queries such as channels return the current host
height, while point-lookup queries such as channel and
next_sequence_receive answer with proof_height none and no host height
field. -/
theorem query_surface_height_amended
    (ctx : QueryCtx) (rc : QueryChannelRequest) (rn : QueryNextSequenceReceiveRequest) :
    (∀ ends h, ctx.channel_ends_impl = Except.ok ends → ctx.host_height_impl = Except.ok h →
      ChannelQueryServer.channels ctx =
        Except.ok { channels := ends, pagination := none, height := some h }) ∧
    (∀ resp, ChannelQueryServer.channel ctx rc = Except.ok resp → resp.proof_height = none) ∧
    (∀ resp, ChannelQueryServer.next_sequence_receive ctx rn = Except.ok resp →
      resp.proof_height = none) := by
  refine ⟨?_, ?_, ?_⟩
  · intro ends h he hh
    simp only [ChannelQueryServer.channels, he, hh]
  · intro resp hr
    unfold ChannelQueryServer.channel at hr
    split at hr
    · exact Except.noConfusion hr
    · split at hr
      · exact Except.noConfusion hr
      · simp only [ChannelEndPath.new] at hr
        split at hr
        · exact Except.noConfusion hr
        · injection hr with h2
          rw [← h2]
  · intro resp hr
    unfold ChannelQueryServer.next_sequence_receive at hr
    split at hr
    · exact Except.noConfusion hr
    · split at hr
      · exact Except.noConfusion hr
      · simp only [SeqRecvPath.new] at hr
        split at hr
        · exact Except.noConfusion hr
        · injection hr with h2
          rw [← h2]

/-- Witness for the amended C3 at the concrete query context. -/
theorem query_surface_height_amended_witness :
    ChannelQueryServer.channels wQCtx =
      Except.ok { channels := [(wPath, wOpenChannel)], pagination := none, height := some ⟨1, 5⟩ } ∧
    ({ channel := some wOpenChannel, proof := [], proof_height := none }
        : QueryChannelResponse).proof_height = none ∧
    ({ next_sequence_receive := 5, proof := [], proof_height := none }
        : QueryNextSequenceReceiveResponse).proof_height = none := by
  have h := query_surface_height_amended wQCtx wChannelReq wNextSeqReq
  exact ⟨h.1 [(wPath, wOpenChannel)] ⟨1, 5⟩ rfl rfl, h.2.1 _ rfl, h.2.2 _ rfl⟩

/-- C10: the PacketReceipt handler always succeeds on syntactically valid
identifiers: it answers received = true exactly when a receipt is stored at
the receipt path, and received = false rather than a not-found error
otherwise. -/
theorem packet_receipt_total
    (ctx : QueryCtx) (request : QueryPacketReceiptRequest) (cid pid : String)
    (hcid : ChannelId.from_str request.channel_id = some cid)
    (hpid : PortId.from_str request.port_id = some pid) :
    ∃ resp, ChannelQueryServer.packet_receipt ctx request = Except.ok resp ∧
      resp.proof_height = none ∧
      (resp.received = true ↔ ReceiptPath.new pid cid request.sequence ∈ ctx.receipts) := by
  refine ⟨{ received := exceptIsOk (ctx.get_packet_receipt (ReceiptPath.new pid cid request.sequence)),
            proof := [], proof_height := none }, ?_, rfl, ?_⟩
  · simp only [ChannelQueryServer.packet_receipt, hcid, hpid]
  · by_cases h : ReceiptPath.new pid cid request.sequence ∈ ctx.receipts
    · simp [QueryCtx.get_packet_receipt, h, exceptIsOk]
    · simp [QueryCtx.get_packet_receipt, h, exceptIsOk]

/-- Witness for C10 at the concrete query context, where sequence 1 has a
stored receipt. -/
theorem packet_receipt_total_witness :
    ∃ resp, ChannelQueryServer.packet_receipt wQCtx wReceiptReq = Except.ok resp ∧
      resp.proof_height = none ∧
      (resp.received = true ↔ ReceiptPath.new "transfer" "channel-0" 1 ∈ wQCtx.receipts) :=
  packet_receipt_total wQCtx wReceiptReq "channel-0" "transfer" rfl rfl

end IbcCore
